import Mathlib

/-!
# Pong: the per-frame simulation of `src/main.cpp`

A shallow embedding of the game logic of `src/main.cpp`: the `GameState`,
`Paddle` and `Ball` records, `checkPaddleCollision`, `resetGameState` and the
body of the game loop of `main`, split into the blocks the source marks with
comments.

Modelling conventions.

* `float` values are read as exact rationals (`ℚ`): the literal `0.9f` is
  `9/10`, `0.001f` is `1/1000`, and so on.  Rounding, infinities and NaN are
  not modelled.
* `int` scores are integers (`ℤ`).  In every state the loop can reach they
  stay in `0 .. 5` (`reachable_scores`), so the increment never overflows.
* A paddle of height 0 would divide by zero in `checkPaddleCollision`; the theorems that
  depend on the quotient assume a positive height.
* The inputs a frame reads from GLFW (clock, P key, cursor) are the fields of
  `FrameInput`.  Rendering is not modelled; the audio pool is modelled by its
  round-robin index only.
-/

namespace Pong

/-! ## Constants (`main.cpp` 17-22) -/

/-- The constant `SCR_HEIGHT`. -/
def SCR_HEIGHT : ℚ := 900

/-- The constant `BORDER_WIDTH = 0.07f`. -/
def BORDER_WIDTH : ℚ := 7 / 100

/-- The constant `BORDER_OFFSET = 1.0f - BORDER_WIDTH/2`. -/
def BORDER_OFFSET : ℚ := 1 - BORDER_WIDTH / 2

/-- Size of the sound pool, `POOL_SIZE` in `AudioManager`. -/
def POOL_SIZE : ℕ := 4

/-! ## Data model (`main.cpp` 25-34, 112-126) -/

/-- The record `struct GameState`. -/
structure GameState where
  playerScore : ℤ
  aiScore : ℤ
  gameOver : Bool
  gameStarted : Bool
  waitingToServe : Bool
  lastFrameTime : ℚ
  scoreTime : ℚ
  nextServeDir : ℚ
  deriving DecidableEq, Repr

/-- The record `struct Paddle`. -/
structure Paddle where
  x : ℚ
  y : ℚ
  width : ℚ
  height : ℚ
  speed : ℚ
  deriving DecidableEq, Repr

/-- The record `struct Ball`. -/
structure Ball where
  x : ℚ
  y : ℚ
  size : ℚ
  speedX : ℚ
  speedY : ℚ
  firstHit : Bool
  deriving DecidableEq, Repr

/-- Default member initialisers of `GameState`. -/
def GameState.init : GameState :=
  { playerScore := 0, aiScore := 0, gameOver := false, gameStarted := false,
    waitingToServe := false, lastFrameTime := 0, scoreTime := 0,
    nextServeDir := 3 / 2 }

/-- The constructor `Paddle(xPos, yPos)` with the default width, height and speed. -/
def Paddle.mk0 (xPos yPos : ℚ) : Paddle :=
  { x := xPos, y := yPos, width := 5 / 100, height := 25 / 100, speed := 0 }

/-- The value `Ball()`: all default member initialisers. -/
def Ball.default : Ball :=
  { x := 0, y := 0, size := 5 / 100, speedX := 13 / 10, speedY := 6 / 10,
    firstHit := true }

/-! ## `checkPaddleCollision` (`main.cpp` 313-342) -/

/-- The strict axis-aligned bounding-box test of `checkPaddleCollision`. -/
def overlaps (paddle : Paddle) (ball : Ball) : Bool :=
  let ballLeft := ball.x - ball.size / 2
  let ballRight := ball.x + ball.size / 2
  let paddleLeft := paddle.x - paddle.width / 2
  let paddleRight := paddle.x + paddle.width / 2
  let ballBottom := ball.y - ball.size / 2
  let ballTop := ball.y + ball.size / 2
  let paddleBottom := paddle.y - paddle.height / 2
  let paddleTop := paddle.y + paddle.height / 2
  decide (ballRight > paddleLeft) && decide (ballLeft < paddleRight) &&
    decide (ballTop > paddleBottom) && decide (ballBottom < paddleTop)

/-- The function `checkPaddleCollision`: the returned flag and the ball after the call. -/
def checkPaddleCollision (paddle : Paddle) (ball : Ball) : Bool × Ball :=
  let paddleLeft := paddle.x - paddle.width / 2
  let paddleRight := paddle.x + paddle.width / 2
  if overlaps paddle ball then
    (true,
      { ball with
        x := if ball.speedX > 0 then paddleLeft - ball.size / 2 - 1 / 1000
             else paddleRight + ball.size / 2 + 1 / 1000
        speedX := if ball.firstHit then (if ball.speedX > 0 then 3 else -3)
                  else -ball.speedX
        speedY := ball.speedY + ((ball.y - paddle.y) / (paddle.height / 2)) * 1
        firstHit := false })
  else (false, ball)

/-! ## Helpers from `<cmath>` and `<algorithm>` -/

/-- The function `std::copysign(mag, sgn)` on exact values: the magnitude of `mag` with the sign
of `sgn` (a zero `sgn` counts as positive). -/
def copysign (mag sgn : ℚ) : ℚ :=
  if sgn < 0 then -|mag| else |mag|

/-- The function `std::clamp(v, lo, hi)`. -/
def clamp (v lo hi : ℚ) : ℚ :=
  if v < lo then lo else if hi < v then hi else v

/-! ## The world the game loop owns and the inputs of one frame -/

/-- The local objects of `main` that the loop reads and writes (`main.cpp` 141-148). -/
structure World where
  state : GameState
  playerPaddle : Paddle
  aiPaddle : Paddle
  ball : Ball
  /-- The field `AudioManager::nextSound`. -/
  nextSound : ℕ
  deriving DecidableEq, Repr

/-- What one iteration of the loop reads from GLFW. -/
structure FrameInput where
  /-- The value of `glfwGetTime()` at the top of the iteration (line 182). -/
  currentFrame : ℚ
  /-- Whether `glfwGetKey(window, GLFW_KEY_P) == GLFW_PRESS`. -/
  keyP : Bool
  /-- The cursor ordinate written by `glfwGetCursorPos`. -/
  mouseY : ℚ
  /-- The value of `glfwGetTime()` passed to `resetGameState` at line 190. -/
  startClock : ℚ
  /-- The value of `glfwGetTime()` passed to `resetGameState` at line 194. -/
  restartClock : ℚ
  deriving DecidableEq, Repr

/-- The objects as `main` creates them before the loop (`main.cpp` 143-148). -/
def World.init : World :=
  { state := GameState.init
    playerPaddle := Paddle.mk0 (9 / 10) 0
    aiPaddle := { Paddle.mk0 (-9 / 10) 0 with speed := 13 / 10 }
    ball := Ball.default
    nextSound := 0 }

/-- The method `AudioManager::playBonk`, reduced to the pool index it advances. -/
def playBonk (w : World) : World :=
  { w with nextSound := (w.nextSound + 1) % POOL_SIZE }

/-- The function `resetGameState` (`main.cpp` 300-311). -/
def resetGameState (w : World) (currentTime : ℚ) : World :=
  { w with
    state := { w.state with
      playerScore := 0
      aiScore := 0
      waitingToServe := true
      scoreTime := currentTime
      nextServeDir := -(3 / 2) }
    playerPaddle := Paddle.mk0 (9 / 10) 0
    aiPaddle := { Paddle.mk0 (-9 / 10) 0 with speed := 13 / 10 }
    ball := Ball.default }

/-! ## The blocks of the loop body (`main.cpp` 181-255) -/

/-- The value `deltaTime` of the frame (line 183). -/
def deltaTime (w : World) (inp : FrameInput) : ℚ :=
  inp.currentFrame - w.state.lastFrameTime

/-- The block "Timing": store the new `lastFrameTime` (line 184). -/
def tick (w : World) (inp : FrameInput) : World :=
  { w with state := { w.state with lastFrameTime := inp.currentFrame } }

/-- The block "Game state transitions" (lines 188-196). -/
def stateTransitions (w : World) (inp : FrameInput) : World :=
  let w1 :=
    if !w.state.gameStarted && inp.keyP then
      let r := resetGameState w inp.startClock
      { r with state := { r.state with gameStarted := true } }
    else w
  if w1.state.gameOver && inp.keyP then
    let r := resetGameState w1 inp.restartClock
    { r with state := { r.state with gameOver := false } }
  else w1

/-- The block "Update paddles" (lines 208-218). -/
def updatePaddles (w : World) (inp : FrameInput) (dt : ℚ) : World :=
  let PADDLE_BOUNDARY := 1 - (w.playerPaddle.height / 2 + BORDER_WIDTH)
  let player := { w.playerPaddle with
    y := clamp (1 - (2 * inp.mouseY / SCR_HEIGHT)) (-PADDLE_BOUNDARY) PADDLE_BOUNDARY }
  let aiY := w.aiPaddle.y + w.aiPaddle.speed * (if w.ball.y > w.aiPaddle.y then dt else -dt)
  let ai := { w.aiPaddle with y := clamp aiY (-PADDLE_BOUNDARY) PADDLE_BOUNDARY }
  { w with playerPaddle := player, aiPaddle := ai }

/-- The block "Update ball position" (lines 220-224). -/
def updateBall (w : World) (dt : ℚ) : World :=
  if !w.state.waitingToServe then
    { w with ball := { w.ball with
        x := w.ball.x + w.ball.speedX * dt
        y := w.ball.y + w.ball.speedY * dt } }
  else w

/-- The test of the block "Border collisions" (line 227). -/
def hitsBorder (ball : Ball) : Bool :=
  decide (|ball.y| + ball.size / 2 > BORDER_OFFSET)

/-- The block "Border collisions" on the ball: whether it bounced, and the ball afterwards
(lines 226-231). -/
def borderBounce (ball : Ball) : Bool × Ball :=
  if hitsBorder ball then
    (true,
      { ball with
        speedY := -copysign ball.speedY ball.y
        y := copysign (BORDER_OFFSET - ball.size / 2 - 1 / 1000) ball.y })
  else (false, ball)

/-- The block "Border collisions" on the world, with its sound. -/
def borderCollisions (w : World) : World :=
  let r := borderBounce w.ball
  let w1 := { w with ball := r.2 }
  if r.1 then playBonk w1 else w1

/-- The condition of the block "Paddle collisions" (line 234),
`checkPaddleCollision(first, ball) || checkPaddleCollision(second, ball)`:
the value of the condition and the ball afterwards.  The operator `||` evaluates its right
operand only when the left one is false. -/
def paddleCollisionPhase (first second : Paddle) (ball : Ball) : Bool × Ball :=
  let r1 := checkPaddleCollision first ball
  if r1.1 then (true, r1.2) else checkPaddleCollision second r1.2

/-- The block "Paddle collisions" on the world, with its sound (lines 233-236). -/
def paddleCollisions (w : World) : World :=
  let r := paddleCollisionPhase w.playerPaddle w.aiPaddle w.ball
  let w1 := { w with ball := r.2 }
  if r.1 then playBonk w1 else w1

/-- The block "Scoring" (lines 238-249). -/
def scoring (w : World) (currentFrame : ℚ) : World :=
  if |w.ball.x| > 1 then
    let s := w.state
    let s1 : GameState :=
      if w.ball.x < 0 then { s with playerScore := s.playerScore + 1 }
      else { s with aiScore := s.aiScore + 1 }
    let s2 : GameState := { s1 with
      nextServeDir := if w.ball.x > 0 then 3 / 2 else -(3 / 2)
      waitingToServe := true
      scoreTime := currentFrame }
    let s3 : GameState :=
      if max s2.playerScore s2.aiScore ≥ 5 then { s2 with gameOver := true } else s2
    { w with state := s3, ball := Ball.default }
  else w

/-- The block "Serve after delay" (lines 251-255). -/
def serve (w : World) (currentFrame : ℚ) : World :=
  if w.state.waitingToServe && decide (currentFrame - w.state.scoreTime ≥ 1) then
    { w with
      state := { w.state with waitingToServe := false }
      ball := { w.ball with speedX := w.state.nextServeDir } }
  else w

/-- The play branch up to the scoring block: paddles, ball position, border and paddle
collisions (lines 208-236). -/
def beforeScoring (w : World) (inp : FrameInput) (dt : ℚ) : World :=
  paddleCollisions (borderCollisions (updateBall (updatePaddles w inp dt) dt))

/-- The play branch `else if (!state.gameOver)` of the loop body (lines 207-255), rendering
left out. -/
def playStep (w : World) (inp : FrameInput) (dt : ℚ) : World :=
  serve (scoring (beforeScoring w inp dt) inp.currentFrame) inp.currentFrame

/-- One iteration of the game loop (lines 181-286), rendering left out. -/
def frameStep (w : World) (inp : FrameInput) : World :=
  let dt := deltaTime w inp
  let w1 := stateTransitions (tick w inp) inp
  if !w1.state.gameStarted then w1
  else if !w1.state.gameOver then playStep w1 inp dt
  else w1

/-- The world the scoring block of this frame sees, when the frame runs the play branch. -/
def frameBeforeScoring (w : World) (inp : FrameInput) : World :=
  beforeScoring (stateTransitions (tick w inp) inp) inp (deltaTime w inp)

/-- Whether this frame runs the play branch and its scoring block fires. -/
def frameScores (w : World) (inp : FrameInput) : Bool :=
  let w1 := stateTransitions (tick w inp) inp
  w1.state.gameStarted && !w1.state.gameOver &&
    decide (|(frameBeforeScoring w inp).ball.x| > 1)

/-- The worlds the loop can be in at the top of an iteration. -/
inductive Reachable : World → Prop where
  | init : Reachable World.init
  | step (w : World) (inp : FrameInput) : Reachable w → Reachable (frameStep w inp)

/-- Run the loop body over a list of frame inputs. -/
def run (w : World) : List FrameInput → World
  | [] => w
  | inp :: rest => run (frameStep w inp) rest

/-! ## The paddle phase as the specification words it, and concrete inputs -/

/-- The paddle-collision phase following the specification's words: `checkPaddleCollision` is
applied to the first paddle and then, unconditionally, to the second paddle on the ball as the
first call left it; the bounce signal is raised when either call reports a hit. -/
def paddleCollisionPhaseSpec (first second : Paddle) (ball : Ball) : Bool × Ball :=
  let r1 := checkPaddleCollision first ball
  let r2 := checkPaddleCollision second r1.2
  (r1.1 || r2.1, r2.2)

/-- A paddle of negative height at the origin. -/
def thinPaddle : Paddle :=
  { x := 0, y := 0, width := 5 / 100, height := -(2 / 100), speed := 0 }

/-- A default ball moved up by 1/100. -/
def raisedBall : Ball :=
  { Ball.default with y := 1 / 100 }

/-- A paddle centred on the origin. -/
def centrePaddle : Paddle := Paddle.mk0 0 0

/-- A paddle four hundredths left of the origin; it overlaps `centrePaddle`. -/
def leftPaddle : Paddle := Paddle.mk0 (-(4 / 100)) 0

/-- The player's paddle as `main` constructs it. -/
def playerPaddle0 : Paddle := Paddle.mk0 (9 / 10) 0

/-- A ball on the player's paddle, one tenth above its centre. -/
def englishBall : Ball :=
  { Ball.default with x := 9 / 10, y := 1 / 10 }

/-- A ball that has sunk into the top border while moving up. -/
def sunkBall : Ball :=
  { Ball.default with y := 19 / 20 }

/-- The paddles stand where `main` and `resetGameState` put them: the player's at x = 9/10,
the AI's at x = -9/10, both of width 5/100. -/
def standardPaddles (w : World) : Prop :=
  w.playerPaddle.x = 9 / 10 ∧ w.playerPaddle.width = 5 / 100 ∧
    w.aiPaddle.x = -9 / 10 ∧ w.aiPaddle.width = 5 / 100

instance (w : World) : Decidable (standardPaddles w) := by
  unfold standardPaddles
  infer_instance

/-- A frame input at clock reading `t` with the cursor at mid-height. -/
def frameAt (t : ℚ) (p : Bool) : FrameInput :=
  { currentFrame := t, keyP := p, mouseY := 450, startClock := t, restartClock := t }

/-- A game in play with the ball just past the right edge, moving right with speed 1. -/
def rightExitWorld : World :=
  { World.init with
    state := { GameState.init with gameStarted := true }
    ball := { Ball.default with x := 101 / 100, speedX := 1 } }

/-- The world after the first frame in which P is pressed, at clock reading 0. -/
def startedWorld : World := frameStep World.init (frameAt 0 true)

/-- A session in which P is pressed at time 0 and every later frame comes a full second after
the previous one.  Frame 0 resets the game (`scoreTime` 0, waiting).  Each odd frame finds the
wait elapsed and serves with `speedX` = -3/2.  Each even frame moves the ball by one second of
travel to (-3/2, 3/5): no border is hit (3/5 + 1/40 < 193/200), no paddle is overlapped (the
ball's right edge -59/40 is left of the AI paddle's left edge -37/40), |x| > 1 with x < 0, so
the player scores and the serve direction is -3/2 again.  After frame 10 the player has 5. -/
def fiveExits : List FrameInput :=
  [frameAt 0 true, frameAt 1 false, frameAt 2 false, frameAt 3 false, frameAt 4 false,
    frameAt 5 false, frameAt 6 false, frameAt 7 false, frameAt 8 false, frameAt 9 false,
    frameAt 10 false]

/-- The world after the session `fiveExits`. -/
def wonWorld : World := run World.init fiveExits

/-- The four modes read off the flags as the claim reads them. -/
def modesAsClaimed (w : World) : List Bool :=
  [!w.state.gameStarted, w.state.gameOver, w.state.waitingToServe,
    w.state.gameStarted && !w.state.gameOver && !w.state.waitingToServe]

/-- The four modes read off the flags as the loop dispatches on them: the serve wait counts
only while the game is not over. -/
def modesAsDispatched (w : World) : List Bool :=
  [!w.state.gameStarted, w.state.gameOver, w.state.waitingToServe && !w.state.gameOver,
    w.state.gameStarted && !w.state.gameOver && !w.state.waitingToServe]

/-- Exactly one entry of the list is true. -/
def exactlyOne (modes : List Bool) : Prop := modes.count true = 1

instance (modes : List Bool) : Decidable (exactlyOne modes) := by
  unfold exactlyOne
  infer_instance

/-- The invariant of the game loop: what holds of the world at the top of every iteration. -/
structure Inv (w : World) : Prop where
  over_iff : w.state.gameOver = true ↔ 5 ≤ max w.state.playerScore w.state.aiScore
  lo : 0 ≤ w.state.playerScore ∧ 0 ≤ w.state.aiScore
  hi : w.state.playerScore ≤ 5 ∧ w.state.aiScore ≤ 5
  not_started :
    w.state.gameStarted = false → w.state.gameOver = false ∧ w.state.waitingToServe = false
  over_waiting : w.state.gameOver = true → w.state.waitingToServe = true
  paddles : standardPaddles w
  waiting_ball : w.state.waitingToServe = true → w.ball = Ball.default

end Pong

namespace Pong

/-! ## Facts about `checkPaddleCollision` -/

theorem checkPaddleCollision_fst (paddle : Paddle) (ball : Ball) :
    (checkPaddleCollision paddle ball).1 = overlaps paddle ball := by
  unfold checkPaddleCollision
  by_cases h : overlaps paddle ball = true <;> simp [h]

theorem checkPaddleCollision_miss (paddle : Paddle) (ball : Ball)
    (h : overlaps paddle ball = false) : checkPaddleCollision paddle ball = (false, ball) := by
  unfold checkPaddleCollision
  simp [h]

theorem overlaps_after_hit (paddle : Paddle) (ball : Ball)
    (h : overlaps paddle ball = true) :
    overlaps paddle (checkPaddleCollision paddle ball).2 = false := by
  unfold checkPaddleCollision
  simp only [h, if_true]
  by_cases hs : ball.speedX > 0
  · simp only [overlaps, hs, if_true]
    simp only [Bool.and_eq_false_imp, Bool.and_eq_true, decide_eq_true_eq, decide_eq_false_iff_not]
    intro h1
    exfalso
    linarith [h1.1.1]
  · simp only [overlaps, hs, if_false]
    simp only [Bool.and_eq_false_imp, Bool.and_eq_true, decide_eq_true_eq, decide_eq_false_iff_not]
    intro h1
    exfalso
    linarith [h1.1.2]

/-- C1. No-penetration: whenever `checkPaddleCollision` returns true, the ball it leaves no
longer overlaps the paddle under the same strict box test, so an immediate second call with the
same paddle returns false. -/
theorem checkPaddleCollision_no_penetration (paddle : Paddle) (ball : Ball)
    (h : (checkPaddleCollision paddle ball).1 = true) :
    overlaps paddle (checkPaddleCollision paddle ball).2 = false ∧
      (checkPaddleCollision paddle (checkPaddleCollision paddle ball).2).1 = false := by
  rw [checkPaddleCollision_fst] at h
  have h2 := overlaps_after_hit paddle ball h
  exact ⟨h2, by rw [checkPaddleCollision_fst]; exact h2⟩

/-- The witness for C1: the player's paddle at the origin height and a ball centred on it. -/
theorem checkPaddleCollision_no_penetration_witness :
    (checkPaddleCollision (Paddle.mk0 (9 / 10) 0)
        { Ball.default with x := 9 / 10 }).1 = true ∧
      overlaps (Paddle.mk0 (9 / 10) 0)
        (checkPaddleCollision (Paddle.mk0 (9 / 10) 0)
          { Ball.default with x := 9 / 10 }).2 = false ∧
      (checkPaddleCollision (Paddle.mk0 (9 / 10) 0)
        (checkPaddleCollision (Paddle.mk0 (9 / 10) 0)
          { Ball.default with x := 9 / 10 }).2).1 = false :=
  ⟨by decide!, checkPaddleCollision_no_penetration _ _ (by decide!)⟩

/-- C2. Horizontal speed after a paddle hit: on the first hit since the serve the speed snaps
to magnitude 3 whatever it was; on later hits it is exactly negated; the first-hit flag is
false afterwards. -/
theorem checkPaddleCollision_speedX (paddle : Paddle) (ball : Ball)
    (h : overlaps paddle ball = true) :
    (ball.firstHit = true → |(checkPaddleCollision paddle ball).2.speedX| = 3) ∧
      (ball.firstHit = false →
        (checkPaddleCollision paddle ball).2.speedX = -ball.speedX) ∧
      (checkPaddleCollision paddle ball).2.firstHit = false := by
  unfold checkPaddleCollision
  simp only [h, if_true]
  refine ⟨?_, ?_, trivial⟩
  · intro hf
    by_cases hs : ball.speedX > 0 <;> simp [hf, hs]
  · intro hf
    simp [hf]

/-- The witness for C2: a first hit of a ball arriving with speed 13/10. -/
theorem checkPaddleCollision_speedX_witness :
    overlaps (Paddle.mk0 (9 / 10) 0) { Ball.default with x := 9 / 10 } = true ∧
    ((Ball.firstHit { Ball.default with x := 9 / 10 } = true →
      |(checkPaddleCollision (Paddle.mk0 (9 / 10) 0)
        { Ball.default with x := 9 / 10 }).2.speedX| = 3) ∧
    (Ball.firstHit { Ball.default with x := 9 / 10 } = false →
      (checkPaddleCollision (Paddle.mk0 (9 / 10) 0)
        { Ball.default with x := 9 / 10 }).2.speedX
        = -Ball.speedX { Ball.default with x := 9 / 10 }) ∧
    (checkPaddleCollision (Paddle.mk0 (9 / 10) 0)
        { Ball.default with x := 9 / 10 }).2.firstHit = false) :=
  ⟨by decide!, checkPaddleCollision_speedX _ _ (by decide!)⟩


/-! ## Vertical English (C9) -/

theorem overlaps_vertical (paddle : Paddle) (ball : Ball) (h : overlaps paddle ball = true) :
    ball.y + ball.size / 2 > paddle.y - paddle.height / 2 ∧
      ball.y - ball.size / 2 < paddle.y + paddle.height / 2 := by
  simp only [overlaps, Bool.and_eq_true, decide_eq_true_eq] at h
  exact ⟨h.1.2, h.2⟩

/-- The counterexample for C9: with the non-zero height -2/100 the ball `raisedBall` overlaps
the paddle, the increment of `speedY` is -1, and -1 does not lie strictly between
`-(1 + size/height) = 3/2` and `1 + size/height = -3/2`. -/
theorem vertical_english_negative_height :
    thinPaddle.height ≠ 0 ∧ overlaps thinPaddle raisedBall = true ∧
      (checkPaddleCollision thinPaddle raisedBall).2.speedY - raisedBall.speedY = -1 ∧
      ¬ (-(1 + raisedBall.size / thinPaddle.height)
            < (checkPaddleCollision thinPaddle raisedBall).2.speedY - raisedBall.speedY ∧
          (checkPaddleCollision thinPaddle raisedBall).2.speedY - raisedBall.speedY
            < 1 + raisedBall.size / thinPaddle.height) := by
  decide!

/-- C9 (amended). Vertical English: for every paddle of positive height and every overlapping
ball, `checkPaddleCollision` adds exactly `(ball.y - paddle.y) / (paddle.height / 2)` to
`speedY` and leaves `ball.y` unchanged, and that increment lies strictly between
`-(1 + size/height)` and `1 + size/height`. -/
theorem checkPaddleCollision_vertical_english (paddle : Paddle) (ball : Ball)
    (hh : 0 < paddle.height) (h : overlaps paddle ball = true) :
    (checkPaddleCollision paddle ball).2.speedY
        = ball.speedY + (ball.y - paddle.y) / (paddle.height / 2) ∧
      (checkPaddleCollision paddle ball).2.y = ball.y ∧
      -(1 + ball.size / paddle.height) < (ball.y - paddle.y) / (paddle.height / 2) ∧
      (ball.y - paddle.y) / (paddle.height / 2) < 1 + ball.size / paddle.height := by
  obtain ⟨hlo, hhi⟩ := overlaps_vertical paddle ball h
  have h2 : 0 < paddle.height / 2 := by linarith
  have hc : (1 + ball.size / paddle.height) * (paddle.height / 2)
      = paddle.height / 2 + ball.size / 2 := by
    field_simp
  refine ⟨?_, ?_, ?_, ?_⟩
  · unfold checkPaddleCollision
    simp [h]
  · unfold checkPaddleCollision
    simp [h]
  · rw [lt_div_iff₀ h2, neg_mul, hc]
    linarith
  · rw [div_lt_iff₀ h2, hc]
    linarith

/-- The witness for C9: paddle at y = 0 with height 1/4, ball at y = 1/10; the new `speedY` is
the old one plus 8/10. -/
theorem checkPaddleCollision_vertical_english_witness :
    (checkPaddleCollision playerPaddle0 englishBall).2.speedY = englishBall.speedY + 8 / 10 ∧
    ((checkPaddleCollision playerPaddle0 englishBall).2.speedY
        = englishBall.speedY + (englishBall.y - playerPaddle0.y) / (playerPaddle0.height / 2) ∧
      (checkPaddleCollision playerPaddle0 englishBall).2.y = englishBall.y ∧
      -(1 + englishBall.size / playerPaddle0.height)
        < (englishBall.y - playerPaddle0.y) / (playerPaddle0.height / 2) ∧
      (englishBall.y - playerPaddle0.y) / (playerPaddle0.height / 2)
        < 1 + englishBall.size / playerPaddle0.height) :=
  ⟨by decide!,
    checkPaddleCollision_vertical_english playerPaddle0 englishBall (by decide!) (by decide!)⟩

/-! ## Border bounce (C5) -/

/-- C5. Border bounce postcondition: for a ball of diameter 5/100 whose `|y| + size/2` exceeds
`BORDER_OFFSET`, the bounce block fires and leaves `|y| ≤ BORDER_OFFSET - size/2` (so its test
no longer holds), `y` keeps its sign, and `speedY` keeps its magnitude with the sign opposite
to that of `y`. -/
theorem borderBounce_post (ball : Ball) (hs : ball.size = 5 / 100)
    (hb : |ball.y| + ball.size / 2 > BORDER_OFFSET) :
    (borderBounce ball).1 = true ∧
      |(borderBounce ball).2.y| ≤ BORDER_OFFSET - (borderBounce ball).2.size / 2 ∧
      hitsBorder (borderBounce ball).2 = false ∧
      (0 < ball.y → 0 < (borderBounce ball).2.y) ∧
      (ball.y < 0 → (borderBounce ball).2.y < 0) ∧
      ball.y ≠ 0 ∧
      |(borderBounce ball).2.speedY| = |ball.speedY| ∧
      (0 < ball.y → (borderBounce ball).2.speedY = -|ball.speedY|) ∧
      (ball.y < 0 → (borderBounce ball).2.speedY = |ball.speedY|) ∧
      (borderBounce ball).2.y * (borderBounce ball).2.speedY ≤ 0 := by
  have hhit : hitsBorder ball = true := by
    simp only [hitsBorder, decide_eq_true_eq]
    exact hb
  have hc : |(BORDER_OFFSET - ball.size / 2 - 1 / 1000 : ℚ)| = 939 / 1000 := by
    rw [hs]
    norm_num [BORDER_OFFSET, BORDER_WIDTH, abs_of_pos]
  have hy0 : ball.y ≠ 0 := by
    intro h0
    rw [h0, hs] at hb
    norm_num [BORDER_OFFSET, BORDER_WIDTH] at hb
  have hsy : 0 ≤ |ball.speedY| := abs_nonneg _
  have hbb : borderBounce ball = (true,
      { ball with
        speedY := -copysign ball.speedY ball.y
        y := copysign (BORDER_OFFSET - ball.size / 2 - 1 / 1000) ball.y }) := by
    unfold borderBounce
    rw [if_pos hhit]
  rw [hbb]
  by_cases hy : ball.y < 0
  · have hny : ¬ 0 < ball.y := by intro h; linarith
    simp only [copysign, hy, if_true, hc, hitsBorder, hs]
    norm_num [BORDER_OFFSET, BORDER_WIDTH, hny, hy0, abs_of_pos]
  · have hpy : 0 < ball.y := lt_of_le_of_ne (not_lt.mp hy) (Ne.symm hy0)
    simp only [copysign, hy, if_false, hc, hitsBorder, hs]
    norm_num [BORDER_OFFSET, BORDER_WIDTH, hpy, hy0, abs_of_pos]

/-- The witness for C5: a ball at y = 19/20 moving up. -/
theorem borderBounce_post_witness :
    (borderBounce sunkBall).2.y = 939 / 1000 ∧ (borderBounce sunkBall).2.speedY = -(6 / 10) ∧
    ((borderBounce sunkBall).1 = true ∧
      |(borderBounce sunkBall).2.y| ≤ BORDER_OFFSET - (borderBounce sunkBall).2.size / 2 ∧
      hitsBorder (borderBounce sunkBall).2 = false ∧
      (0 < sunkBall.y → 0 < (borderBounce sunkBall).2.y) ∧
      (sunkBall.y < 0 → (borderBounce sunkBall).2.y < 0) ∧
      sunkBall.y ≠ 0 ∧
      |(borderBounce sunkBall).2.speedY| = |sunkBall.speedY| ∧
      (0 < sunkBall.y → (borderBounce sunkBall).2.speedY = -|sunkBall.speedY|) ∧
      (sunkBall.y < 0 → (borderBounce sunkBall).2.speedY = |sunkBall.speedY|) ∧
      (borderBounce sunkBall).2.y * (borderBounce sunkBall).2.speedY ≤ 0) :=
  ⟨by decide!, by decide!, borderBounce_post sunkBall (by decide!) (by decide!)⟩

/-! ## Both paddles in one tick (C7) -/

/-- The counterexample for C7: the default ball overlaps both `centrePaddle` and `leftPaddle`;
the first call moves it to x = -51/1000, where it still overlaps `leftPaddle`; the loop stops
there (speedX = 3), while two unconditional calls would move it on to x = -91/1000 with
speedX = -3. -/
theorem paddleCollisionPhase_short_circuit :
    overlaps centrePaddle Ball.default = true ∧ overlaps leftPaddle Ball.default = true ∧
      (paddleCollisionPhase centrePaddle leftPaddle Ball.default).2.x = -(51 / 1000) ∧
      (paddleCollisionPhase centrePaddle leftPaddle Ball.default).2.speedX = 3 ∧
      (paddleCollisionPhaseSpec centrePaddle leftPaddle Ball.default).2.x = -(91 / 1000) ∧
      (paddleCollisionPhaseSpec centrePaddle leftPaddle Ball.default).2.speedX = -3 ∧
      paddleCollisionPhase centrePaddle leftPaddle Ball.default
        ≠ paddleCollisionPhaseSpec centrePaddle leftPaddle Ball.default := by
  decide!

/-- C7 (amended). Unless the ball as repositioned by a hit on the first paddle still overlaps
the second paddle, the paddle-collision phase of the loop leaves the ball in the same state,
and raises the bounce signal in the same cases, as `checkPaddleCollision` on the first paddle
followed unconditionally by `checkPaddleCollision` on the second. -/
theorem paddleCollisionPhase_eq_spec (first second : Paddle) (ball : Ball)
    (h : overlaps first ball = true →
      overlaps second (checkPaddleCollision first ball).2 = false) :
    paddleCollisionPhase first second ball = paddleCollisionPhaseSpec first second ball := by
  unfold paddleCollisionPhase paddleCollisionPhaseSpec
  by_cases h1 : overlaps first ball = true
  · have h2 := checkPaddleCollision_miss second _ (h h1)
    simp [checkPaddleCollision_fst, h1, h2]
  · have h1f : overlaps first ball = false := by simpa using h1
    simp only [checkPaddleCollision_fst, h1f, Bool.false_or]
    exact Prod.ext (checkPaddleCollision_fst _ _) rfl

/-- The witness for C7: the player's paddle is hit; the AI's paddle is far away. -/
theorem paddleCollisionPhase_eq_spec_witness :
    (overlaps playerPaddle0 englishBall = true →
      overlaps World.init.aiPaddle (checkPaddleCollision playerPaddle0 englishBall).2 = false) ∧
    overlaps playerPaddle0 englishBall = true ∧
    paddleCollisionPhase playerPaddle0 World.init.aiPaddle englishBall
      = paddleCollisionPhaseSpec playerPaddle0 World.init.aiPaddle englishBall :=
  ⟨by decide!, by decide!,
    paddleCollisionPhase_eq_spec playerPaddle0 World.init.aiPaddle englishBall (by decide!)⟩

/-- With the paddles where `main` puts them (x = 9/10 and x = -9/10, width 5/100) and the ball
of diameter 5/100, a ball repositioned by the first paddle never overlaps the second, so in
every frame of the game the short-circuit of line 234 skips a call that would report no hit. -/
theorem game_paddles_never_both (first second : Paddle) (ball : Ball)
    (hx1 : first.x = 9 / 10) (hw1 : first.width = 5 / 100)
    (hx2 : second.x = -9 / 10) (hw2 : second.width = 5 / 100)
    (hs : ball.size = 5 / 100) :
    overlaps first ball = true →
      overlaps second (checkPaddleCollision first ball).2 = false := by
  intro h1
  unfold checkPaddleCollision
  simp only [h1, if_true]
  by_cases hsx : ball.speedX > 0
  · simp only [overlaps, hsx, if_true, hx1, hw1, hx2, hw2, hs]
    norm_num
  · simp only [overlaps, hsx, if_false, hx1, hw1, hx2, hw2, hs]
    norm_num


/-! ## The blocks of a frame, one by one -/

theorem ite_playBonk_state (c : Bool) (w : World) :
    (if c then playBonk w else w).state = w.state := by
  cases c <;> rfl

theorem ite_playBonk_ball (c : Bool) (w : World) :
    (if c then playBonk w else w).ball = w.ball := by
  cases c <;> rfl

theorem ite_playBonk_player (c : Bool) (w : World) :
    (if c then playBonk w else w).playerPaddle = w.playerPaddle := by
  cases c <;> rfl

theorem ite_playBonk_ai (c : Bool) (w : World) :
    (if c then playBonk w else w).aiPaddle = w.aiPaddle := by
  cases c <;> rfl

theorem updateBall_state (w : World) (dt : ℚ) : (updateBall w dt).state = w.state := by
  unfold updateBall
  split <;> rfl

theorem updateBall_player (w : World) (dt : ℚ) :
    (updateBall w dt).playerPaddle = w.playerPaddle := by
  unfold updateBall
  split <;> rfl

theorem updateBall_ai (w : World) (dt : ℚ) : (updateBall w dt).aiPaddle = w.aiPaddle := by
  unfold updateBall
  split <;> rfl

theorem updateBall_waiting (w : World) (dt : ℚ) (h : w.state.waitingToServe = true) :
    (updateBall w dt).ball = w.ball := by
  unfold updateBall
  simp [h]

theorem borderBounce_default : borderBounce Ball.default = (false, Ball.default) := by
  decide!

theorem borderCollisions_state (w : World) : (borderCollisions w).state = w.state := by
  unfold borderCollisions
  exact ite_playBonk_state _ _

theorem borderCollisions_player (w : World) :
    (borderCollisions w).playerPaddle = w.playerPaddle := by
  unfold borderCollisions
  exact ite_playBonk_player _ _

theorem borderCollisions_ai (w : World) : (borderCollisions w).aiPaddle = w.aiPaddle := by
  unfold borderCollisions
  exact ite_playBonk_ai _ _

theorem borderCollisions_default (w : World) (h : w.ball = Ball.default) :
    (borderCollisions w).ball = Ball.default := by
  unfold borderCollisions
  rw [ite_playBonk_ball, h, borderBounce_default]

theorem overlaps_default_player (p : Paddle) (hx : p.x = 9 / 10) (hw : p.width = 5 / 100) :
    overlaps p Ball.default = false := by
  simp only [overlaps, Ball.default, hx, hw]
  norm_num

theorem overlaps_default_ai (p : Paddle) (hx : p.x = -9 / 10) (hw : p.width = 5 / 100) :
    overlaps p Ball.default = false := by
  simp only [overlaps, Ball.default, hx, hw]
  norm_num

theorem paddleCollisionPhase_default (first second : Paddle)
    (hx1 : first.x = 9 / 10) (hw1 : first.width = 5 / 100)
    (hx2 : second.x = -9 / 10) (hw2 : second.width = 5 / 100) :
    paddleCollisionPhase first second Ball.default = (false, Ball.default) := by
  unfold paddleCollisionPhase
  rw [checkPaddleCollision_miss _ _ (overlaps_default_player first hx1 hw1)]
  simp only [Bool.false_eq_true, if_false]
  exact checkPaddleCollision_miss _ _ (overlaps_default_ai second hx2 hw2)

theorem paddleCollisions_state (w : World) : (paddleCollisions w).state = w.state := by
  unfold paddleCollisions
  exact ite_playBonk_state _ _

theorem paddleCollisions_player (w : World) :
    (paddleCollisions w).playerPaddle = w.playerPaddle := by
  unfold paddleCollisions
  exact ite_playBonk_player _ _

theorem paddleCollisions_ai (w : World) : (paddleCollisions w).aiPaddle = w.aiPaddle := by
  unfold paddleCollisions
  exact ite_playBonk_ai _ _

theorem paddleCollisions_default (w : World) (h : w.ball = Ball.default)
    (hc : standardPaddles w) : (paddleCollisions w).ball = Ball.default := by
  obtain ⟨hx1, hw1, hx2, hw2⟩ := hc
  unfold paddleCollisions
  rw [ite_playBonk_ball, h, paddleCollisionPhase_default _ _ hx1 hw1 hx2 hw2]

theorem beforeScoring_state (w : World) (inp : FrameInput) (dt : ℚ) :
    (beforeScoring w inp dt).state = w.state := by
  unfold beforeScoring
  rw [paddleCollisions_state, borderCollisions_state, updateBall_state]
  rfl

theorem beforeScoring_standardPaddles (w : World) (inp : FrameInput) (dt : ℚ)
    (hc : standardPaddles w) : standardPaddles (beforeScoring w inp dt) := by
  unfold standardPaddles beforeScoring
  rw [paddleCollisions_player, borderCollisions_player, updateBall_player,
    paddleCollisions_ai, borderCollisions_ai, updateBall_ai]
  exact hc

theorem beforeScoring_waiting (w : World) (inp : FrameInput) (dt : ℚ)
    (hw : w.state.waitingToServe = true) (hb : w.ball = Ball.default)
    (hc : standardPaddles w) : (beforeScoring w inp dt).ball = Ball.default := by
  unfold beforeScoring
  apply paddleCollisions_default
  · apply borderCollisions_default
    rw [updateBall_waiting (updatePaddles w inp dt) dt hw]
    exact hb
  · unfold standardPaddles
    rw [borderCollisions_player, updateBall_player, borderCollisions_ai, updateBall_ai]
    exact hc

/-! ## Scoring and serve -/

theorem scoring_miss (w : World) (cf : ℚ) (h : ¬ |w.ball.x| > 1) : scoring w cf = w := by
  unfold scoring
  rw [if_neg h]

theorem scoring_ball (w : World) (cf : ℚ) (h : |w.ball.x| > 1) :
    (scoring w cf).ball = Ball.default := by
  unfold scoring
  rw [if_pos h]

theorem scoring_player (w : World) (cf : ℚ) :
    (scoring w cf).playerPaddle = w.playerPaddle := by
  unfold scoring
  split <;> rfl

theorem scoring_ai (w : World) (cf : ℚ) : (scoring w cf).aiPaddle = w.aiPaddle := by
  unfold scoring
  split <;> rfl

theorem scoring_flags (w : World) (cf : ℚ) (h : |w.ball.x| > 1) :
    (scoring w cf).state.waitingToServe = true ∧ (scoring w cf).state.scoreTime = cf ∧
      (scoring w cf).state.gameStarted = w.state.gameStarted ∧
      (scoring w cf).state.nextServeDir = (if w.ball.x > 0 then 3 / 2 else -(3 / 2)) := by
  unfold scoring
  rw [if_pos h]
  by_cases hx : w.ball.x < 0 <;> simp only [hx, if_true, if_false] <;>
    split <;> exact ⟨rfl, rfl, rfl, rfl⟩

theorem scoring_right (w : World) (cf : ℚ) (h : w.ball.x > 1) :
    (scoring w cf).state.aiScore = w.state.aiScore + 1 ∧
      (scoring w cf).state.playerScore = w.state.playerScore := by
  have h1 : |w.ball.x| > 1 := lt_of_lt_of_le h (le_abs_self _)
  have h2 : ¬ w.ball.x < 0 := by intro hc; linarith
  unfold scoring
  rw [if_pos h1]
  simp only [h2, if_false]
  split <;> exact ⟨rfl, rfl⟩

theorem scoring_left (w : World) (cf : ℚ) (h : w.ball.x < -1) :
    (scoring w cf).state.playerScore = w.state.playerScore + 1 ∧
      (scoring w cf).state.aiScore = w.state.aiScore := by
  have h1 : |w.ball.x| > 1 := lt_of_lt_of_le (by linarith) (neg_le_abs _)
  have h2 : w.ball.x < 0 := by linarith
  unfold scoring
  rw [if_pos h1]
  simp only [h2, if_true]
  split <;> exact ⟨rfl, rfl⟩

theorem serve_after_scoring (w : World) (cf : ℚ) (h : |w.ball.x| > 1) :
    serve (scoring w cf) cf = scoring w cf := by
  have hf := (scoring_flags w cf h).2.1
  unfold serve
  rw [hf]
  norm_num

theorem serve_player (w : World) (cf : ℚ) : (serve w cf).playerPaddle = w.playerPaddle := by
  unfold serve
  split <;> rfl

theorem serve_ai (w : World) (cf : ℚ) : (serve w cf).aiPaddle = w.aiPaddle := by
  unfold serve
  split <;> rfl

theorem serve_early (w : World) (cf : ℚ) (h : cf - w.state.scoreTime < 1) : serve w cf = w := by
  unfold serve
  have : ¬ (cf - w.state.scoreTime ≥ 1) := not_le.mpr h
  simp [this]

theorem serve_due (w : World) (cf : ℚ) (hw : w.state.waitingToServe = true)
    (h : cf - w.state.scoreTime ≥ 1) :
    serve w cf = { w with
      state := { w.state with waitingToServe := false }
      ball := { w.ball with speedX := w.state.nextServeDir } } := by
  unfold serve
  simp [hw, h]

/-! ## The frame as a whole -/

theorem stateTransitions_playing (w : World) (inp : FrameInput)
    (hs : w.state.gameStarted = true) (hg : w.state.gameOver = false) :
    stateTransitions w inp = w := by
  unfold stateTransitions
  simp [hs, hg]

theorem frameStep_playing (w : World) (inp : FrameInput)
    (hs : w.state.gameStarted = true) (hg : w.state.gameOver = false) :
    frameStep w inp = playStep (tick w inp) inp (deltaTime w inp) := by
  have h1 : (tick w inp).state.gameStarted = true := hs
  have h2 : (tick w inp).state.gameOver = false := hg
  unfold frameStep
  simp only [stateTransitions_playing _ inp h1 h2, h1, h2]
  simp

theorem frameBeforeScoring_playing (w : World) (inp : FrameInput)
    (hs : w.state.gameStarted = true) (hg : w.state.gameOver = false) :
    frameBeforeScoring w inp = beforeScoring (tick w inp) inp (deltaTime w inp) := by
  have h1 : (tick w inp).state.gameStarted = true := hs
  have h2 : (tick w inp).state.gameOver = false := hg
  unfold frameBeforeScoring
  rw [stateTransitions_playing _ inp h1 h2]


theorem standardPaddles_reset (w : World) (t : ℚ) : standardPaddles (resetGameState w t) := by
  unfold standardPaddles resetGameState Paddle.mk0
  norm_num

theorem stateTransitions_waiting (w : World) (inp : FrameInput)
    (hs : w.state.gameStarted = true) (hw : w.state.waitingToServe = true)
    (hb : w.ball = Ball.default) (hc : standardPaddles w) :
    (stateTransitions w inp).state.waitingToServe = true ∧
      (stateTransitions w inp).ball = Ball.default ∧
      standardPaddles (stateTransitions w inp) := by
  unfold stateTransitions
  simp only [hs, Bool.not_true, Bool.false_and, Bool.false_eq_true, if_false]
  split
  · refine ⟨rfl, rfl, ?_⟩
    unfold standardPaddles resetGameState Paddle.mk0
    norm_num
  · exact ⟨hw, hb, hc⟩

theorem frameScores_waiting (w : World) (inp : FrameInput)
    (hs : w.state.gameStarted = true) (hw : w.state.waitingToServe = true)
    (hb : w.ball = Ball.default) (hc : standardPaddles w) :
    frameScores w inp = false := by
  obtain ⟨h1, h2, h3⟩ := stateTransitions_waiting (tick w inp) inp hs hw hb hc
  have hball : (frameBeforeScoring w inp).ball = Ball.default := by
    unfold frameBeforeScoring
    exact beforeScoring_waiting _ inp _ h1 h2 h3
  unfold frameScores
  rw [hball]
  simp [Ball.default]

/-- When the scoring block of a frame does not fire, the frame leaves the scores as the state
transitions of that frame left them. -/
theorem frameStep_scores_of_not_frameScores (w : World) (inp : FrameInput)
    (h : frameScores w inp = false) :
    (frameStep w inp).state.playerScore
        = (stateTransitions (tick w inp) inp).state.playerScore ∧
      (frameStep w inp).state.aiScore
        = (stateTransitions (tick w inp) inp).state.aiScore := by
  unfold frameStep
  by_cases hs : (stateTransitions (tick w inp) inp).state.gameStarted = true
  · by_cases hg : (stateTransitions (tick w inp) inp).state.gameOver = true
    · simp [hs, hg]
    · have hg2 : (stateTransitions (tick w inp) inp).state.gameOver = false := by simpa using hg
      have hx : ¬ |(beforeScoring (stateTransitions (tick w inp) inp) inp
          (deltaTime w inp)).ball.x| > 1 := by
        intro hc
        unfold frameScores frameBeforeScoring at h
        simp [hs, hg2, hc] at h
      simp only [hs, hg2, Bool.not_true, Bool.not_false, Bool.false_eq_true, if_false, if_true]
      unfold playStep
      rw [scoring_miss _ _ hx]
      have hst := beforeScoring_state (stateTransitions (tick w inp) inp) inp (deltaTime w inp)
      unfold serve
      split
      · simp only
        rw [hst]
        exact ⟨rfl, rfl⟩
      · rw [hst]
        exact ⟨rfl, rfl⟩
  · have hs2 : (stateTransitions (tick w inp) inp).state.gameStarted = false := by simpa using hs
    simp [hs2]

/-- The result of a frame of play whose scoring block fires. -/
theorem frameStep_scoring (w : World) (inp : FrameInput)
    (hs : w.state.gameStarted = true) (hg : w.state.gameOver = false)
    (hout : |(frameBeforeScoring w inp).ball.x| > 1) :
    frameStep w inp = scoring (frameBeforeScoring w inp) inp.currentFrame := by
  rw [frameStep_playing w inp hs hg]
  rw [frameBeforeScoring_playing w inp hs hg] at hout ⊢
  unfold playStep
  exact serve_after_scoring _ _ hout

/-! ## The scoring step (C3) and the serve direction (C10) -/

/-- C3. Scoring step: in a frame of play in which the ball ends up with |x| > 1, exactly one
score goes up, by exactly 1, and the other is unchanged: the AI's when the ball left at x > 1
(the player's side), the player's when it left at x < -1; `waitingToServe` becomes true and the
ball is back at (0,0); with the paddles where `main` puts them, no input makes the next frame
score again. -/
theorem scoring_step (w : World) (inp : FrameInput)
    (hs : w.state.gameStarted = true) (hg : w.state.gameOver = false)
    (hc : standardPaddles w)
    (hout : |(frameBeforeScoring w inp).ball.x| > 1) :
    (((frameBeforeScoring w inp).ball.x > 1 ∧
        (frameStep w inp).state.aiScore = w.state.aiScore + 1 ∧
        (frameStep w inp).state.playerScore = w.state.playerScore) ∨
      ((frameBeforeScoring w inp).ball.x < -1 ∧
        (frameStep w inp).state.playerScore = w.state.playerScore + 1 ∧
        (frameStep w inp).state.aiScore = w.state.aiScore)) ∧
      (frameStep w inp).state.waitingToServe = true ∧
      (frameStep w inp).ball.x = 0 ∧ (frameStep w inp).ball.y = 0 ∧
      ∀ next : FrameInput, frameScores (frameStep w inp) next = false := by
  have hfs := frameStep_scoring w inp hs hg hout
  have hst : (frameBeforeScoring w inp).state = (tick w inp).state := by
    rw [frameBeforeScoring_playing w inp hs hg, beforeScoring_state]
  have hfl := scoring_flags (frameBeforeScoring w inp) inp.currentFrame hout
  have hbl := scoring_ball (frameBeforeScoring w inp) inp.currentFrame hout
  have hpad : standardPaddles (frameStep w inp) := by
    have h0 : standardPaddles (frameBeforeScoring w inp) := by
      rw [frameBeforeScoring_playing w inp hs hg]
      exact beforeScoring_standardPaddles _ _ _ hc
    rw [hfs]
    unfold standardPaddles
    rw [scoring_player, scoring_ai]
    exact h0
  refine ⟨?_, ?_, ?_, ?_, ?_⟩
  · rcases lt_abs.mp hout with h | h
    · left
      have := scoring_right (frameBeforeScoring w inp) inp.currentFrame h
      rw [hst] at this
      rw [hfs]
      exact ⟨h, this⟩
    · right
      have h2 : (frameBeforeScoring w inp).ball.x < -1 := by linarith
      have := scoring_left (frameBeforeScoring w inp) inp.currentFrame h2
      rw [hst] at this
      rw [hfs]
      exact ⟨h2, this⟩
  · rw [hfs]
    exact hfl.1
  · rw [hfs, hbl]
    rfl
  · rw [hfs, hbl]
    rfl
  · intro next
    apply frameScores_waiting _ _ _ _ _ hpad
    · rw [hfs, hfl.2.2.1, hst]
      exact hs
    · rw [hfs]
      exact hfl.1
    · rw [hfs]
      exact hbl

/-- The witness for C3: the ball at x = 101/100 with speedX = 1 and the scores at 0/0; the frame
gives playerScore 0, aiScore 1, `waitingToServe` true and the ball at (0,0). -/
theorem scoring_step_witness :
    (frameStep rightExitWorld (frameAt 0 false)).state.playerScore = 0 ∧
    (frameStep rightExitWorld (frameAt 0 false)).state.aiScore = 1 ∧
    ((((frameBeforeScoring rightExitWorld (frameAt 0 false)).ball.x > 1 ∧
        (frameStep rightExitWorld (frameAt 0 false)).state.aiScore
          = rightExitWorld.state.aiScore + 1 ∧
        (frameStep rightExitWorld (frameAt 0 false)).state.playerScore
          = rightExitWorld.state.playerScore) ∨
      ((frameBeforeScoring rightExitWorld (frameAt 0 false)).ball.x < -1 ∧
        (frameStep rightExitWorld (frameAt 0 false)).state.playerScore
          = rightExitWorld.state.playerScore + 1 ∧
        (frameStep rightExitWorld (frameAt 0 false)).state.aiScore
          = rightExitWorld.state.aiScore)) ∧
      (frameStep rightExitWorld (frameAt 0 false)).state.waitingToServe = true ∧
      (frameStep rightExitWorld (frameAt 0 false)).ball.x = 0 ∧
      (frameStep rightExitWorld (frameAt 0 false)).ball.y = 0 ∧
      ∀ next : FrameInput,
        frameScores (frameStep rightExitWorld (frameAt 0 false)) next = false) :=
  ⟨by decide!, by decide!,
    scoring_step rightExitWorld (frameAt 0 false) (by decide!) (by decide!) (by decide!)
      (by decide!)⟩

/-- C10. Serve direction: after a scoring step `nextServeDir` has magnitude 3/2 and the sign of
the x at which the ball left the field (3/2 after an exit at x > 1, where the player's paddle
stands; -3/2 after an exit at x < -1, where the AI's paddle stands); the serve block copies it
into the ball's `speedX`; `resetGameState` sets it to -3/2 and puts the player's paddle at
x = 9/10 and the AI's at x = -9/10. -/
theorem serve_direction (w : World) (inp : FrameInput)
    (hs : w.state.gameStarted = true) (hg : w.state.gameOver = false)
    (hout : |(frameBeforeScoring w inp).ball.x| > 1) :
    ((frameBeforeScoring w inp).ball.x > 1 →
        (frameStep w inp).state.nextServeDir = 3 / 2 ∧
        (frameStep w inp).state.aiScore = w.state.aiScore + 1) ∧
      ((frameBeforeScoring w inp).ball.x < -1 →
        (frameStep w inp).state.nextServeDir = -(3 / 2) ∧
        (frameStep w inp).state.playerScore = w.state.playerScore + 1) ∧
      |(frameStep w inp).state.nextServeDir| = 3 / 2 ∧
      0 < (frameBeforeScoring w inp).ball.x * (frameStep w inp).state.nextServeDir ∧
      (∀ (v : World) (cf : ℚ), v.state.waitingToServe = true → cf - v.state.scoreTime ≥ 1 →
        (serve v cf).ball.speedX = v.state.nextServeDir) ∧
      (∀ (v : World) (t : ℚ), (resetGameState v t).state.nextServeDir = -(3 / 2) ∧
        (resetGameState v t).playerPaddle.x = 9 / 10 ∧
        (resetGameState v t).aiPaddle.x = -(9 / 10)) := by
  have hfs := frameStep_scoring w inp hs hg hout
  have hst : (frameBeforeScoring w inp).state = (tick w inp).state := by
    rw [frameBeforeScoring_playing w inp hs hg, beforeScoring_state]
  have hfl := (scoring_flags (frameBeforeScoring w inp) inp.currentFrame hout).2.2.2
  rw [hfs, hfl]
  refine ⟨?_, ?_, ?_, ?_, ?_, ?_⟩
  · intro h
    have h0 : (frameBeforeScoring w inp).ball.x > 0 := by linarith
    have := (scoring_right (frameBeforeScoring w inp) inp.currentFrame h).1
    rw [hst] at this
    exact ⟨by rw [if_pos h0], this⟩
  · intro h
    have h0 : ¬ (frameBeforeScoring w inp).ball.x > 0 := by intro hc; linarith
    have := (scoring_left (frameBeforeScoring w inp) inp.currentFrame h).1
    rw [hst] at this
    exact ⟨by rw [if_neg h0], this⟩
  · split <;> norm_num [abs_of_pos]
  · rcases lt_abs.mp hout with h | h
    · have h0 : (frameBeforeScoring w inp).ball.x > 0 := by linarith
      rw [if_pos h0]
      linarith
    · have h0 : ¬ (frameBeforeScoring w inp).ball.x > 0 := by intro hc; linarith
      rw [if_neg h0]
      linarith
  · intro v cf hw hd
    rw [serve_due v cf hw hd]
  · intro v t
    unfold resetGameState Paddle.mk0
    norm_num

/-- The witness for C10: the ball leaves at x = 101/100 and the next serve direction is 3/2. -/
theorem serve_direction_witness :
    (frameStep rightExitWorld (frameAt 0 false)).state.nextServeDir = 3 / 2 ∧
    (((frameBeforeScoring rightExitWorld (frameAt 0 false)).ball.x > 1 →
        (frameStep rightExitWorld (frameAt 0 false)).state.nextServeDir = 3 / 2 ∧
        (frameStep rightExitWorld (frameAt 0 false)).state.aiScore
          = rightExitWorld.state.aiScore + 1) ∧
      ((frameBeforeScoring rightExitWorld (frameAt 0 false)).ball.x < -1 →
        (frameStep rightExitWorld (frameAt 0 false)).state.nextServeDir = -(3 / 2) ∧
        (frameStep rightExitWorld (frameAt 0 false)).state.playerScore
          = rightExitWorld.state.playerScore + 1) ∧
      |(frameStep rightExitWorld (frameAt 0 false)).state.nextServeDir| = 3 / 2 ∧
      0 < (frameBeforeScoring rightExitWorld (frameAt 0 false)).ball.x
          * (frameStep rightExitWorld (frameAt 0 false)).state.nextServeDir ∧
      (∀ (v : World) (cf : ℚ), v.state.waitingToServe = true → cf - v.state.scoreTime ≥ 1 →
        (serve v cf).ball.speedX = v.state.nextServeDir) ∧
      (∀ (v : World) (t : ℚ), (resetGameState v t).state.nextServeDir = -(3 / 2) ∧
        (resetGameState v t).playerPaddle.x = 9 / 10 ∧
        (resetGameState v t).aiPaddle.x = -(9 / 10))) :=
  ⟨by decide!,
    serve_direction rightExitWorld (frameAt 0 false) (by decide!) (by decide!) (by decide!)⟩


/-! ## The serve delay (C6) -/

/-- The counterexample for C6: in the state left by `resetGameState` the ball's `speedX` is
13/10, not 0, and a frame 99/100 s after `scoreTime` leaves `waitingToServe` true and
`speedX` at 13/10. -/
theorem serve_delay_speed_not_zero :
    startedWorld.state.waitingToServe = true ∧ startedWorld.state.scoreTime = 0 ∧
      startedWorld.ball.speedX = 13 / 10 ∧
      (frameAt (99 / 100) false).currentFrame - startedWorld.state.scoreTime < 1 ∧
      (frameStep startedWorld (frameAt (99 / 100) false)).state.waitingToServe = true ∧
      (frameStep startedWorld (frameAt (99 / 100) false)).ball.speedX = 13 / 10 ∧
      (frameStep startedWorld (frameAt (99 / 100) false)).ball.speedX ≠ 0 := by
  decide!

/-- C6 (amended). Serve delay: in a frame of a game in play (started, not over) taken while
`waitingToServe` is true, with the ball as `Ball()` left it and the paddles where `main` puts
them: if less than 1 s has passed since `scoreTime`, `waitingToServe` stays true and the ball
stays `Ball()` (at (0,0), with `speedX` = 13/10); if at least 1 s has passed, `waitingToServe`
becomes false and the ball's `speedX` becomes `nextServeDir`, the ball still at (0,0). -/
theorem serve_delay (w : World) (inp : FrameInput)
    (hs : w.state.gameStarted = true) (hg : w.state.gameOver = false)
    (hw : w.state.waitingToServe = true) (hb : w.ball = Ball.default)
    (hc : standardPaddles w) :
    (inp.currentFrame - w.state.scoreTime < 1 →
        (frameStep w inp).state.waitingToServe = true ∧
        (frameStep w inp).ball = Ball.default ∧
        (frameStep w inp).ball.speedX = 13 / 10) ∧
      (inp.currentFrame - w.state.scoreTime ≥ 1 →
        (frameStep w inp).state.waitingToServe = false ∧
        (frameStep w inp).ball.speedX = w.state.nextServeDir ∧
        (frameStep w inp).ball.x = 0 ∧ (frameStep w inp).ball.y = 0) := by
  have hbs : (beforeScoring (tick w inp) inp (deltaTime w inp)).ball = Ball.default :=
    beforeScoring_waiting (tick w inp) inp _ hw hb hc
  have hst : (beforeScoring (tick w inp) inp (deltaTime w inp)).state = (tick w inp).state :=
    beforeScoring_state _ _ _
  have hno : ¬ |(beforeScoring (tick w inp) inp (deltaTime w inp)).ball.x| > 1 := by
    rw [hbs]
    norm_num [Ball.default]
  rw [frameStep_playing w inp hs hg]
  unfold playStep
  rw [scoring_miss _ _ hno]
  constructor
  · intro he
    have he2 : inp.currentFrame
        - (beforeScoring (tick w inp) inp (deltaTime w inp)).state.scoreTime < 1 := by
      rw [hst]
      exact he
    rw [serve_early _ _ he2, hst, hbs]
    exact ⟨hw, rfl, rfl⟩
  · intro he
    have he2 : inp.currentFrame
        - (beforeScoring (tick w inp) inp (deltaTime w inp)).state.scoreTime ≥ 1 := by
      rw [hst]
      exact he
    have hw2 : (beforeScoring (tick w inp) inp (deltaTime w inp)).state.waitingToServe = true := by
      rw [hst]
      exact hw
    rw [serve_due _ _ hw2 he2]
    refine ⟨rfl, ?_, ?_, ?_⟩
    · show (beforeScoring (tick w inp) inp (deltaTime w inp)).state.nextServeDir = _
      rw [hst]
      rfl
    · show (beforeScoring (tick w inp) inp (deltaTime w inp)).ball.x = 0
      rw [hbs]
      rfl
    · show (beforeScoring (tick w inp) inp (deltaTime w inp)).ball.y = 0
      rw [hbs]
      rfl

/-- The witness for C6: the world after the start frame, then a frame at 99/100 s (still
waiting, speedX 13/10) and one at 1 s (served with speedX -3/2). -/
theorem serve_delay_witness :
    (frameStep startedWorld (frameAt 1 false)).ball.speedX = -(3 / 2) ∧
    ((frameAt 1 false).currentFrame - startedWorld.state.scoreTime < 1 →
        (frameStep startedWorld (frameAt 1 false)).state.waitingToServe = true ∧
        (frameStep startedWorld (frameAt 1 false)).ball = Ball.default ∧
        (frameStep startedWorld (frameAt 1 false)).ball.speedX = 13 / 10) ∧
      ((frameAt 1 false).currentFrame - startedWorld.state.scoreTime ≥ 1 →
        (frameStep startedWorld (frameAt 1 false)).state.waitingToServe = false ∧
        (frameStep startedWorld (frameAt 1 false)).ball.speedX
          = startedWorld.state.nextServeDir ∧
        (frameStep startedWorld (frameAt 1 false)).ball.x = 0 ∧
        (frameStep startedWorld (frameAt 1 false)).ball.y = 0) :=
  ⟨by decide!,
    serve_delay startedWorld (frameAt 1 false) (by decide!) (by decide!) (by decide!)
      (by decide!) (by decide!)⟩

/-- Once the game is over the serve block is not run: without the P key, `waitingToServe` stays
true however much time has passed since `scoreTime`. -/
theorem serve_delay_not_run_when_over :
    wonWorld.state.gameOver = true ∧ wonWorld.state.waitingToServe = true ∧
      (frameAt 20 false).currentFrame - wonWorld.state.scoreTime ≥ 1 ∧
      (frameStep wonWorld (frameAt 20 false)).state.waitingToServe = true := by
  decide!


/-! ## The loop invariant -/

theorem inv_init : Inv World.init where
  over_iff := by decide
  lo := by decide
  hi := by decide
  not_started := by decide
  over_waiting := by decide
  paddles := by decide!
  waiting_ball := by decide

theorem inv_tick (w : World) (inp : FrameInput) (h : Inv w) : Inv (tick w inp) :=
  ⟨h.over_iff, h.lo, h.hi, h.not_started, h.over_waiting, h.paddles, h.waiting_ball⟩

theorem inv_fresh (w : World) (t : ℚ) (started over : Bool) (hs : started = true)
    (ho : over = false) :
    Inv { resetGameState w t with
      state := { (resetGameState w t).state with gameStarted := started, gameOver := over } }
    where
  over_iff := by
    subst ho
    simp [resetGameState]
  lo := by simp [resetGameState]
  hi := by simp [resetGameState]
  not_started := by
    subst hs
    simp
  over_waiting := by
    subst ho
    simp
  paddles := standardPaddles_reset w t
  waiting_ball := fun _ => rfl

theorem inv_stateTransitions (w : World) (inp : FrameInput) (h : Inv w) :
    Inv (stateTransitions w inp) := by
  unfold stateTransitions
  by_cases hs : w.state.gameStarted = true
  · simp only [hs, Bool.not_true, Bool.false_and, Bool.false_eq_true, if_false]
    split
    · exact inv_fresh w inp.restartClock w.state.gameStarted false hs rfl
    · exact h
  · have hs2 : w.state.gameStarted = false := by simpa using hs
    have hg : w.state.gameOver = false := (h.not_started hs2).1
    by_cases hp : inp.keyP = true
    · simp only [hs2, hp, hg, Bool.not_false, Bool.and_self, if_true, resetGameState,
        Bool.false_and, Bool.false_eq_true, if_false]
      exact inv_fresh w inp.startClock true false rfl rfl
    · have hp2 : inp.keyP = false := by simpa using hp
      simp only [hs2, hp2, hg, Bool.and_false, Bool.false_eq_true, if_false]
      exact h

theorem scoring_gameOver (w : World) (cf : ℚ) (h : |w.ball.x| > 1)
    (hg : w.state.gameOver = false) :
    ((scoring w cf).state.gameOver = true ↔
      5 ≤ max (scoring w cf).state.playerScore (scoring w cf).state.aiScore) := by
  unfold scoring
  rw [if_pos h]
  by_cases hx : w.ball.x < 0
  · simp only [hx, if_true]
    split
    · rename_i h5
      simpa using h5
    · rename_i h5
      simp only [hg, Bool.false_eq_true, false_iff]
      exact h5
  · simp only [hx, if_false]
    split
    · rename_i h5
      simpa using h5
    · rename_i h5
      simp only [hg, Bool.false_eq_true, false_iff]
      exact h5

theorem inv_scoring (w : World) (cf : ℚ) (h : Inv w) (hs : w.state.gameStarted = true)
    (hg : w.state.gameOver = false) (hout : |w.ball.x| > 1) : Inv (scoring w cf) := by
  have hfl := scoring_flags w cf hout
  have hlt : ¬ 5 ≤ max w.state.playerScore w.state.aiScore := by
    rw [← h.over_iff, hg]
    simp
  have hp5 : w.state.playerScore < 5 := by
    by_contra hc
    exact hlt (le_trans (not_lt.mp hc) (le_max_left _ _))
  have ha5 : w.state.aiScore < 5 := by
    by_contra hc
    exact hlt (le_trans (not_lt.mp hc) (le_max_right _ _))
  have hsc : (0 ≤ (scoring w cf).state.playerScore ∧ 0 ≤ (scoring w cf).state.aiScore) ∧
      ((scoring w cf).state.playerScore ≤ 5 ∧ (scoring w cf).state.aiScore ≤ 5) := by
    rcases lt_abs.mp hout with hx | hx
    · obtain ⟨e1, e2⟩ := scoring_right w cf hx
      rw [e1, e2]
      have := h.lo
      omega
    · obtain ⟨e1, e2⟩ := scoring_left w cf (by linarith)
      rw [e1, e2]
      have := h.lo
      omega
  exact
    { over_iff := scoring_gameOver w cf hout hg
      lo := hsc.1
      hi := hsc.2
      not_started := by
        intro hn
        rw [hfl.2.2.1, hs] at hn
        exact absurd hn (by simp)
      over_waiting := fun _ => hfl.1
      paddles := by
        unfold standardPaddles
        rw [scoring_player, scoring_ai]
        exact h.paddles
      waiting_ball := fun _ => scoring_ball w cf hout }

theorem inv_serve (w : World) (cf : ℚ) (h : Inv w) (hs : w.state.gameStarted = true)
    (hg : w.state.gameOver = false) : Inv (serve w cf) := by
  unfold serve
  split
  · exact
      { over_iff := h.over_iff
        lo := h.lo
        hi := h.hi
        not_started := fun hn => absurd (hs.symm.trans hn) (by simp)
        over_waiting := fun ho => absurd (hg.symm.trans ho) (by simp)
        paddles := h.paddles
        waiting_ball := fun hw => absurd hw (by simp) }
  · exact h

theorem inv_beforeScoring (w : World) (inp : FrameInput) (dt : ℚ) (h : Inv w) :
    Inv (beforeScoring w inp dt) := by
  have hst := beforeScoring_state w inp dt
  exact
    { over_iff := by rw [hst]; exact h.over_iff
      lo := by rw [hst]; exact h.lo
      hi := by rw [hst]; exact h.hi
      not_started := by rw [hst]; exact h.not_started
      over_waiting := by rw [hst]; exact h.over_waiting
      paddles := beforeScoring_standardPaddles w inp dt h.paddles
      waiting_ball := by
        rw [hst]
        intro hw
        exact beforeScoring_waiting w inp dt hw (h.waiting_ball hw) h.paddles }

theorem inv_playStep (w : World) (inp : FrameInput) (dt : ℚ) (h : Inv w)
    (hs : w.state.gameStarted = true) (hg : w.state.gameOver = false) :
    Inv (playStep w inp dt) := by
  have hb := inv_beforeScoring w inp dt h
  have hst := beforeScoring_state w inp dt
  have hs2 : (beforeScoring w inp dt).state.gameStarted = true := by rw [hst]; exact hs
  have hg2 : (beforeScoring w inp dt).state.gameOver = false := by rw [hst]; exact hg
  unfold playStep
  by_cases hout : |(beforeScoring w inp dt).ball.x| > 1
  · rw [serve_after_scoring _ _ hout]
    exact inv_scoring _ _ hb hs2 hg2 hout
  · rw [scoring_miss _ _ hout]
    exact inv_serve _ _ hb hs2 hg2

theorem inv_frameStep (w : World) (inp : FrameInput) (h : Inv w) : Inv (frameStep w inp) := by
  have h1 := inv_stateTransitions (tick w inp) inp (inv_tick w inp h)
  unfold frameStep
  by_cases hs : (stateTransitions (tick w inp) inp).state.gameStarted = true
  · by_cases hg : (stateTransitions (tick w inp) inp).state.gameOver = true
    · simp only [hs, hg, Bool.not_true, Bool.false_eq_true, if_false]
      exact h1
    · have hg2 : (stateTransitions (tick w inp) inp).state.gameOver = false := by simpa using hg
      simp only [hs, hg2, Bool.not_true, Bool.not_false, Bool.false_eq_true, if_false, if_true]
      exact inv_playStep _ inp _ h1 hs hg2
  · have hs2 : (stateTransitions (tick w inp) inp).state.gameStarted = false := by simpa using hs
    simp only [hs2, Bool.not_false, if_true]
    exact h1

theorem reachable_inv (w : World) (h : Reachable w) : Inv w := by
  induction h with
  | init => exact inv_init
  | step w inp _ ih => exact inv_frameStep w inp ih

theorem reachable_run (w : World) (inps : List FrameInput) (h : Reachable w) :
    Reachable (run w inps) := by
  induction inps generalizing w with
  | nil => exact h
  | cons inp rest ih => exact ih (frameStep w inp) (Reachable.step w inp h)

/-- In every state the loop can reach both scores lie in 0 .. 5, so the `int` increment of the
scoring block never overflows. -/
theorem reachable_scores (w : World) (h : Reachable w) :
    (0 ≤ w.state.playerScore ∧ w.state.playerScore ≤ 5) ∧
      (0 ≤ w.state.aiScore ∧ w.state.aiScore ≤ 5) :=
  ⟨⟨(reachable_inv w h).lo.1, (reachable_inv w h).hi.1⟩,
    ⟨(reachable_inv w h).lo.2, (reachable_inv w h).hi.2⟩⟩

/-- In every state the loop can reach while waiting to serve, the ball is `Ball()` and the
paddles stand at x = 9/10 and x = -9/10, which is what the frame-level theorems on scoring
and on the serve delay assume. -/
theorem reachable_waiting (w : World) (h : Reachable w) :
    standardPaddles w ∧ (w.state.waitingToServe = true → w.ball = Ball.default) :=
  ⟨(reachable_inv w h).paddles, (reachable_inv w h).waiting_ball⟩

/-! ## Game over at the threshold (C4) and the modes (C8) -/

/-- C4. Game-over exactly at the threshold: in every state reachable from the initial one by
frame steps with arbitrary inputs, `gameOver` is true if and only if
`max(playerScore, aiScore) >= 5`, and no score exceeds 5. -/
theorem gameOver_iff_threshold (w : World) (h : Reachable w) :
    (w.state.gameOver = true ↔ 5 ≤ max w.state.playerScore w.state.aiScore) ∧
      w.state.playerScore ≤ 5 ∧ w.state.aiScore ≤ 5 :=
  ⟨(reachable_inv w h).over_iff, (reachable_inv w h).hi⟩

/-- The witness for C4: the world after five exits, where the player has 5 points and the game
is over. -/
theorem gameOver_iff_threshold_witness :
    Reachable wonWorld ∧ wonWorld.state.playerScore = 5 ∧ wonWorld.state.gameOver = true ∧
      ((wonWorld.state.gameOver = true ↔
          5 ≤ max wonWorld.state.playerScore wonWorld.state.aiScore) ∧
        wonWorld.state.playerScore ≤ 5 ∧ wonWorld.state.aiScore ≤ 5) :=
  ⟨reachable_run World.init fiveExits Reachable.init, by decide!, by decide!,
    gameOver_iff_threshold wonWorld (reachable_run World.init fiveExits Reachable.init)⟩

/-- The counterexample for C8: after the winning point `gameOver` and `waitingToServe` are both
true, so two of the four modes as the claim reads them hold at once. -/
theorem gameOver_and_waitingToServe :
    Reachable wonWorld ∧ wonWorld.state.gameOver = true ∧
      wonWorld.state.waitingToServe = true ∧ ¬ exactlyOne (modesAsClaimed wonWorld) :=
  ⟨reachable_run World.init fiveExits Reachable.init, by decide!, by decide!, by decide!⟩

/-- C8 (amended). Mode exclusivity: in every reachable state exactly one of the four modes
holds when the serve wait is read as `waitingToServe` true and `gameOver` false (not started =
`gameStarted` false; game over = `gameOver` true; playing = started, not over, not waiting);
neither `gameOver` nor `waitingToServe` is true before the game has started; and in a game-over
state `waitingToServe` is true as well. -/
theorem modes_exclusive (w : World) (h : Reachable w) :
    exactlyOne (modesAsDispatched w) ∧
      (w.state.gameStarted = false →
        w.state.gameOver = false ∧ w.state.waitingToServe = false) ∧
      (w.state.gameOver = true → w.state.waitingToServe = true) := by
  have hi := reachable_inv w h
  refine ⟨?_, hi.not_started, hi.over_waiting⟩
  have hn := hi.not_started
  unfold exactlyOne modesAsDispatched
  revert hn
  cases w.state.gameStarted <;> cases w.state.gameOver <;> cases w.state.waitingToServe <;>
    simp

/-- The witness for C8: the world after five exits. -/
theorem modes_exclusive_witness :
    Reachable wonWorld ∧
      (exactlyOne (modesAsDispatched wonWorld) ∧
      (wonWorld.state.gameStarted = false →
        wonWorld.state.gameOver = false ∧ wonWorld.state.waitingToServe = false) ∧
      (wonWorld.state.gameOver = true → wonWorld.state.waitingToServe = true)) :=
  ⟨reachable_run World.init fiveExits Reachable.init,
    modes_exclusive wonWorld (reachable_run World.init fiveExits Reachable.init)⟩

end Pong
